import Mathlib

/-!
Verification of the agent-workflows runtime/heartbeat logic of the
`universal-skills` repository.

The Python sources embedded here (shallowly, as executable Lean functions):
  * `scripts/services/heartbeat_state_machine.py`
    (`classify_heartbeat_ack`, `should_retry_heartbeat_attempt`)
  * `scripts/runtime_state.py`
    (`normalize_runtime_state`, `detect_first_pattern`,
     `detect_error_reason`, `evaluate_runtime_state`)
  * `scripts/services/heartbeat_service.py`
    (`parse_heartbeat_recovery_policy` and its helpers)
  * `scripts/commands/schedule_run.py` (`_decide_runtime_action`)
  * `scripts/main.py` (`_maybe_rollover_heartbeat_session`,
     `_heartbeat_handoff_saved`, `_should_rollover_heartbeat_session`)
  * `scripts/heartbeat_slo.py` (`_percentile`)

Python strings are modelled as Lean `String` (a list of unicode code
points, matching Python's view of `str`), with the Python primitives
(`str.strip`, `str.lower`, the `in` substring test, `str.splitlines`,
truthiness) modelled explicitly below.  ASCII-only behaviour of
`lower`/`strip`/`\w` is modelled (the repository's patterns and states are
all ASCII).
-/

/-- ASCII whitespace, as stripped by Python's `str.strip()`. -/
def isPyWhitespace (c : Char) : Bool :=
  c = ' ' || c = '\t' || c = '\n' || c = '\r' || c = '\x0b' || c = '\x0c'

/-- Strip leading and trailing whitespace from a list of characters. -/
def stripList (l : List Char) : List Char :=
  ((l.dropWhile isPyWhitespace).reverse.dropWhile isPyWhitespace).reverse

/-- Python `s.strip()`. -/
def pyStrip (s : String) : String :=
  ⟨stripList s.data⟩

/-- Python `s.lower()` (ASCII letters; the repository only compares ASCII). -/
def pyLower (s : String) : String :=
  ⟨s.data.map Char.toLower⟩

/-- Python `needle in hay` substring test. -/
def pyIn (needle hay : String) : Bool :=
  decide (needle.data <:+: hay.data)

/-- Truthiness of a Python `Optional[str]`: `None` and `""` are falsy. -/
def pyTruthyStr (s : Option String) : Bool :=
  match s with
  | Option.none => false
  | Option.some t => t ≠ ""

/-- Python `x or default` on an `Optional[str]`. -/
def pyOrStr (s : Option String) (default : String) : String :=
  if pyTruthyStr s then s.getD default else default

/-! ## heartbeat_state_machine.py -/

/-- The set `RECOVERABLE_FAILURE_TYPES` of heartbeat_state_machine.py. -/
def RECOVERABLE_FAILURE_TYPES : List String :=
  ["send_fail", "no_ack", "timeout", "blocked"]

/-- Embedding of `classify_heartbeat_ack` (heartbeat_state_machine.py,
lines 34-47).  Returns `(ack_status, failure_type, reason_code)`. -/
def classify_heartbeat_ack (waited_for_ack : Bool) (last_state : Option String)
    (timed_out : Bool) : String × String × String :=
  if !waited_for_ack then ("not_checked", "", "HB_NOT_CHECKED")
  else
    let state := pyLower (pyStrip (last_state.getD ""))
    if state = "idle" then ("ack", "", "HB_ACK_OK")
    else if state = "blocked" then ("blocked", "blocked", "HB_AGENT_BLOCKED")
    else if timed_out then ("timeout", "timeout", "HB_ACK_TIMEOUT")
    else ("no_ack", "no_ack", "HB_NO_ACK")

/-- Embedding of `should_retry_heartbeat_attempt` (heartbeat_state_machine.py,
lines 50-55).  Python ints are modelled as unbounded `Int`. -/
def should_retry_heartbeat_attempt (failure_type : String)
    (attempt_index max_retries : Int) : Bool :=
  if attempt_index ≥ max_retries then false
  else pyLower (pyStrip failure_type) ∈ RECOVERABLE_FAILURE_TYPES

/-! ## A small model of Python scalar values

Config mappings parsed from YAML/TOML can hold `None`, booleans, ints,
strings, nested mappings and lists; the services coerce them with `int(...)`,
`str(...)` and truthiness.  `PyVal` models such a value. -/

inductive PyVal where
  | none
  | bool (b : Bool)
  | int (n : Int)
  | str (s : String)
  | dict (entries : List (String × PyVal))
  | list (elems : List PyVal)

/-- Python truthiness of a `PyVal`. -/
def pyTruthy : PyVal → Bool
  | PyVal.none => false
  | PyVal.bool b => b
  | PyVal.int n => n ≠ 0
  | PyVal.str s => s ≠ ""
  | PyVal.dict d => !d.isEmpty
  | PyVal.list l => !l.isEmpty

/-- Decimal value of a digit string, if every character is an ASCII digit.
(Python's `int()` additionally accepts underscores between digits; that
extension is not modelled and no theorem below depends on it.) -/
def digitsVal (cs : List Char) : Option Nat :=
  if cs = [] then Option.none
  else if cs.all Char.isDigit then
    Option.some (cs.foldl (fun a c => a * 10 + (c.toNat - 48)) 0)
  else Option.none

/-- Python `int(s)` on a string: strip whitespace, optional sign, digits. -/
def pyIntOfString (s : String) : Option Int :=
  let t := stripList s.data
  if t.head? = Option.some '-' then (digitsVal t.tail).map (fun n => -(n : Int))
  else if t.head? = Option.some '+' then (digitsVal t.tail).map (fun n => (n : Int))
  else (digitsVal t).map (fun n => (n : Int))

/-- Python `int(v)`: `Option.none` models the call raising. -/
def pyToInt : PyVal → Option Int
  | PyVal.none => Option.none
  | PyVal.bool b => Option.some (if b then 1 else 0)
  | PyVal.int n => Option.some n
  | PyVal.str s => pyIntOfString s
  | PyVal.dict _ => Option.none
  | PyVal.list _ => Option.none

/-- Python `str(v)`.  The `repr` of dicts and lists is abbreviated (only its
shape matters: no theorem below evaluates `pyStr` on a dict or list). -/
def pyStr : PyVal → String
  | PyVal.none => "None"
  | PyVal.bool b => if b then "True" else "False"
  | PyVal.int n => toString n
  | PyVal.str s => s
  | PyVal.dict _ => "dict"
  | PyVal.list _ => "list"

/-- Python `d.get(k)` on an assoc-list model of a dict (keys unique). -/
def dictGet (d : List (String × PyVal)) (k : String) : Option PyVal :=
  (d.find? (fun kv => kv.1 == k)).map Prod.snd

/-- Python `d.get(k, default)`. -/
def dictGetD (d : List (String × PyVal)) (k : String) (default : PyVal) : PyVal :=
  (dictGet d k).getD default

/-- Python `k in d`. -/
def dictHas (d : List (String × PyVal)) (k : String) : Bool :=
  (dictGet d k).isSome

/-! ## runtime_state.py -/

/-- The set `RUNTIME_STATES` of runtime_state.py. -/
def RUNTIME_STATES : List String :=
  ["idle", "busy", "blocked", "stuck", "error", "unknown"]

/-- Embedding of `normalize_runtime_state` (runtime_state.py, lines 20-22).
The argument is `Option String` to model `Optional[str]`
(`(state or "")`). -/
def normalize_runtime_state (state : Option String) : String :=
  let value := pyLower (pyStrip (pyOrStr state ""))
  if value ∈ RUNTIME_STATES then value else "unknown"

/-- Embedding of `detect_first_pattern` (runtime_state.py, lines 25-31):
the first non-empty pattern occurring as a substring of the output. -/
def detect_first_pattern (output : String) (patterns : List String) :
    Option String :=
  if output = "" then Option.none
  else if patterns = [] then Option.none
  else patterns.find? (fun p => p != "" && pyIn p output)

/-- The `stuck_after_seconds` resolution of `evaluate_runtime_state`
(runtime_state.py, lines 136-141): `int(cfg.get("stuck_after_seconds", 180))`
with any exception and any non-positive value falling back to 180.
`Option.none` models a missing key. -/
def resolve_stuck_after_seconds (raw : Option PyVal) : Int :=
  let v : Int :=
    match raw with
    | Option.none => 180
    | Option.some pv => (pyToInt pv).getD 180
  if v ≤ 0 then 180 else v

/-- The `runtime_config` fields read by `evaluate_runtime_state`.  The two
pattern lists model `list(cfg.get(..., []) or [])` (missing or `None`
becomes `[]`); `stuck_after_seconds` keeps the raw config value. -/
structure RuntimeConfig where
  busy_patterns : List String
  blocked_patterns : List String
  stuck_after_seconds : Option PyVal

/-- Result payload of `evaluate_runtime_state`.  The Python dict always ends
up with `state` and `reason` keys, and carries `elapsed_seconds` exactly when
the input was not `None` (here: the field repeats the input option). -/
structure RuntimePayload where
  state : String
  reason : String
  elapsed_seconds : Option Int
deriving DecidableEq

/-- Embedding of `evaluate_runtime_state` (runtime_state.py, lines 114-196).
`output = Option.none` models a non-string `output` argument
(`isinstance(output, str)` fails); `force_state`/`force_reason`/
`error_reason` are `Optional[str]` with Python truthiness tests. -/
def evaluate_runtime_state (output : Option String) (cfg : RuntimeConfig)
    (elapsed_seconds : Option Int) (error_reason : Option String)
    (session_running : Bool) (output_readable : Bool)
    (force_state : Option String) (force_reason : Option String) :
    RuntimePayload :=
  if pyTruthyStr force_state then
    { state := normalize_runtime_state force_state,
      reason := pyStrip (pyOrStr force_reason "forced"),
      elapsed_seconds := elapsed_seconds }
  else if !session_running then
    { state := "unknown", reason := "session_not_running",
      elapsed_seconds := elapsed_seconds }
  else if !output_readable then
    { state := "unknown", reason := "unreadable_output",
      elapsed_seconds := elapsed_seconds }
  else
    match output with
    | Option.none =>
      { state := "unknown", reason := "invalid_output",
        elapsed_seconds := elapsed_seconds }
    | Option.some out =>
      match detect_first_pattern out cfg.blocked_patterns with
      | Option.some p =>
        { state := "blocked", reason := "blocked_pattern:" ++ p,
          elapsed_seconds := elapsed_seconds }
      | Option.none =>
        match detect_first_pattern out cfg.busy_patterns with
        | Option.some p =>
          match elapsed_seconds with
          | Option.some e =>
            if e ≥ resolve_stuck_after_seconds cfg.stuck_after_seconds then
              { state := "stuck",
                reason := "busy_elapsed>=" ++
                  toString (resolve_stuck_after_seconds cfg.stuck_after_seconds),
                elapsed_seconds := elapsed_seconds }
            else
              { state := "busy", reason := "busy_pattern:" ++ p,
                elapsed_seconds := elapsed_seconds }
          | Option.none =>
            { state := "busy", reason := "busy_pattern:" ++ p,
              elapsed_seconds := elapsed_seconds }
        | Option.none =>
          if pyTruthyStr error_reason then
            { state := "error", reason := error_reason.getD "",
              elapsed_seconds := elapsed_seconds }
          else if pyStrip out = "" then
            { state := "unknown", reason := "empty_output",
              elapsed_seconds := elapsed_seconds }
          else
            { state := "idle", reason := "ready",
              elapsed_seconds := elapsed_seconds }

/-! ### detect_error_reason (runtime_state.py, lines 59-111)

The regex searches used there are word-boundary searches
`\b(w1|w2|...)\b` over fixed word alternatives; every alternative starts
and ends with a word character, so `\b` at the ends means: the neighbouring
character (when there is one) is not a word character.  Python's `re` is
Unicode-aware; word characters are modelled as ASCII alphanumerics plus
underscore (all the repository's patterns and states are ASCII). -/

/-- Word character for `\b` boundaries (ASCII model of `\w`). -/
def isWordChar (c : Char) : Bool :=
  c.isAlphanum || c = '_'

/-- The word `w` matches at the head of `s` with a word boundary after it. -/
def matchesWordAt (w s : List Char) : Bool :=
  w.isPrefixOf s &&
    (match s.drop w.length with
     | [] => true
     | c :: _ => !isWordChar c)

/-- Scan of `s` for a `\b w \b` match; `prev` records whether the character
before the current position is a word character. -/
def wordOccursFrom (w : List Char) : Bool → List Char → Bool
  | prev, [] => !prev && matchesWordAt w []
  | prev, c :: rest =>
    (!prev && matchesWordAt w (c :: rest)) || wordOccursFrom w (isWordChar c) rest

/-- Python `re.search(r"\b" + w + r"\b", s) is not None` for a word `w` that
starts and ends with word characters. -/
def wordSearch (w : String) (s : List Char) : Bool :=
  wordOccursFrom w.data false s

/-- Python `re.search(r"\b(w1|w2|...)\b", s) is not None`. -/
def anyWordSearch (ws : List String) (s : List Char) : Bool :=
  ws.any (fun w => wordSearch w s)

/-- Line-break characters recognized by Python `str.splitlines()`. -/
def isLineBreakChar (c : Char) : Bool :=
  c = '\n' || c = '\r' || c = '\x0b' || c = '\x0c' ||
  c = '\x1c' || c = '\x1d' || c = '\x1e' || c = '\x85' ||
  c = '\u2028' || c = '\u2029'

/-- Accumulator worker for `pySplitlines` (`\r\n` counts as one break; a
final segment without a terminator is a line only when non-empty). -/
def pySplitlinesAux : List Char → List Char → List (List Char)
  | acc, [] => if acc.isEmpty then [] else [acc.reverse]
  | acc, '\r' :: '\n' :: rest => acc.reverse :: pySplitlinesAux [] rest
  | acc, c :: rest =>
    if isLineBreakChar c then acc.reverse :: pySplitlinesAux [] rest
    else pySplitlinesAux (c :: acc) rest

/-- Python `s.splitlines()`. -/
def pySplitlines (s : List Char) : List (List Char) :=
  pySplitlinesAux [] s

/-- Body of the per-line loop of `detect_error_reason` (runtime_state.py,
lines 92-105): the loop returns `"timeout"` exactly when some line satisfies
this test. -/
def timeoutErrorLine (line : List Char) : Bool :=
  pyIn "timeout" ⟨line⟩ &&
    (anyWordSearch
        ["etimedout", "deadline exceeded", "context deadline exceeded",
          "timed out"] line ||
      anyWordSearch ["error", "failed", "exception", "traceback"] line ||
      (wordSearch "failure" line && !(wordSearch "failure modes" line)))

/-- Embedding of `detect_error_reason` (runtime_state.py, lines 59-111).
When the `"timeout" in lowered` branch finds no signal, control falls
through to the trailing connection checks, embedded as `tail_checks`. -/
def detect_error_reason (output : String) : Option String :=
  if output = "" then Option.none
  else
    let lowered := pyLower output
    let tail_checks : Option String :=
      if pyIn "econnrefused" lowered || pyIn "connection refused" lowered then
        Option.some "connection_refused"
      else if pyIn "etimedout" lowered then Option.some "connection_timed_out"
      else Option.none
    if pyIn "stopped after 10 redirects" lowered then Option.some "redirect_loop"
    else if pyIn "error 522" lowered || pyIn "cloudflare ray id" lowered then
      Option.some "cloudflare_522"
    else if pyIn "error: 500 post " lowered then Option.some "http_500"
    else if pyIn "api error: 400" lowered && pyIn "unknown provider" lowered then
      Option.some "unknown_provider"
    else if pyIn "invalid_request_error" lowered then Option.some "invalid_request"
    else if pyIn "timed out" lowered then Option.some "timeout"
    else if pyIn "timeout" lowered then
      if anyWordSearch
          ["etimedout", "deadline exceeded", "context deadline exceeded"]
          lowered.data then
        Option.some "timeout"
      else if (pySplitlines lowered.data).any timeoutErrorLine then
        Option.some "timeout"
      else tail_checks
    else tail_checks

/-! ## heartbeat_service.py -/

/-- Embedding of `_parse_non_negative_int` (heartbeat_service.py,
lines 9-14): `int(value)` clamped below at 0, with the default on failure. -/
def _parse_non_negative_int (value : PyVal) (default : Int) : Int :=
  match pyToInt value with
  | Option.none => default
  | Option.some n => max 0 n

/-- Embedding of `_parse_bool` (heartbeat_service.py, lines 17-27). -/
def _parse_bool (value : PyVal) (default : Bool) : Bool :=
  match value with
  | PyVal.bool b => b
  | PyVal.none => default
  | v =>
    let text := pyLower (pyStrip (pyStr v))
    if text ∈ ["1", "true", "yes", "y", "on"] then true
    else if text ∈ ["0", "false", "no", "n", "off"] then false
    else default

/-- Python `x or default` on a `PyVal`. -/
def pyValOr (v default : PyVal) : PyVal :=
  if pyTruthy v then v else default

/-- The recovery policy produced by `parse_heartbeat_recovery_policy`. -/
structure RecoveryPolicy where
  max_retries : Int
  retry_backoff_seconds : Int
  fallback_mode : String
  notify_on_failure : Bool
  notifier_channel : String
deriving DecidableEq

/-- The optional CLI-override namespace (`args`); each field models
`getattr(args, name, None)`. -/
structure HbArgs where
  retry : Option PyVal
  backoff_seconds : Option PyVal
  fallback_mode : Option PyVal
  notify_on_failure : Option PyVal
  notifier_channel : Option PyVal

/-- The keys of the `defaults` dict of `parse_heartbeat_recovery_policy`,
in iteration order. -/
def heartbeatPolicyKeys : List String :=
  ["max_retries", "retry_backoff_seconds", "fallback_mode",
    "notify_on_failure", "notifier_channel"]

/-- The `raw` dict of `parse_heartbeat_recovery_policy` (heartbeat_service.py,
lines 44-49): the `recovery` sub-dict when it is a dict (else empty),
with top-level keys promoted when absent. -/
def heartbeatRawPolicy (heartbeat : List (String × PyVal)) :
    List (String × PyVal) :=
  let raw0 :=
    match dictGet heartbeat "recovery" with
    | Option.some (PyVal.dict d) => d
    | _ => []
  heartbeatPolicyKeys.foldl
    (fun r k =>
      if dictHas heartbeat k && !dictHas r k then
        r ++ [(k, dictGetD heartbeat k PyVal.none)]
      else r)
    raw0

/-- Embedding of `parse_heartbeat_recovery_policy` (heartbeat_service.py,
lines 30-108). -/
def parse_heartbeat_recovery_policy (heartbeat : List (String × PyVal))
    (args : Option HbArgs) (fallback_modes : Option (List String)) :
    RecoveryPolicy :=
  let raw := heartbeatRawPolicy heartbeat
  let max_retries0 :=
    _parse_non_negative_int (dictGetD raw "max_retries" (PyVal.int 1)) 1
  let backoff0 :=
    _parse_non_negative_int (dictGetD raw "retry_backoff_seconds" (PyVal.int 3)) 3
  let fallback0 :=
    pyLower (pyStrip (pyStr
      (pyValOr (dictGetD raw "fallback_mode" (PyVal.str "fresh"))
        (PyVal.str "fresh"))))
  let notify0 :=
    _parse_bool (dictGetD raw "notify_on_failure" (PyVal.bool false)) false
  let notifier0 :=
    pyStrip (pyStr
      (pyValOr (dictGetD raw "notifier_channel" (PyVal.str "all"))
        (PyVal.str "all")))
  let notifier1 := if notifier0 = "" then "all" else notifier0
  let normalized_fallback_modes :=
    match fallback_modes with
    | Option.some l => if !l.isEmpty then l else ["none", "fresh"]
    | Option.none => ["none", "fresh"]
  let fallback1 := if fallback0 = "restart" then "fresh" else fallback0
  let fallback2 :=
    if fallback1 ∈ normalized_fallback_modes then fallback1 else "fresh"
  match args with
  | Option.none =>
    { max_retries := max_retries0, retry_backoff_seconds := backoff0,
      fallback_mode := fallback2, notify_on_failure := notify0,
      notifier_channel := notifier1 }
  | Option.some a =>
    let max_retries1 :=
      match a.retry with
      | Option.some v => _parse_non_negative_int v max_retries0
      | Option.none => max_retries0
    let backoff1 :=
      match a.backoff_seconds with
      | Option.some v => _parse_non_negative_int v backoff0
      | Option.none => backoff0
    let fallback3 :=
      match a.fallback_mode with
      | Option.some v =>
        if pyTruthy v then
          let fm0 := pyLower (pyStrip (pyStr v))
          let fm := if fm0 = "restart" then "fresh" else fm0
          if fm ∈ normalized_fallback_modes then fm else fallback2
        else fallback2
      | Option.none => fallback2
    let notify1 :=
      match a.notify_on_failure with
      | Option.some v => _parse_bool v notify0
      | Option.none => notify0
    let notifier2 :=
      match a.notifier_channel with
      | Option.some v =>
        if pyTruthy v then
          let s := pyStrip (pyStr v)
          if s ≠ "" then s else notifier1
        else notifier1
      | Option.none => notifier1
    { max_retries := max_retries1, retry_backoff_seconds := backoff1,
      fallback_mode := fallback3, notify_on_failure := notify1,
      notifier_channel := notifier2 }

/-! ## schedule_run.py -/

/-- Truthiness of an `Optional[int]`: `None` and `0` are falsy. -/
def pyTruthyInt (x : Option Int) : Bool :=
  match x with
  | Option.none => false
  | Option.some n => n ≠ 0

/-- Embedding of `_decide_runtime_action` (schedule_run.py, lines 26-50).
`elapsed : Option Int` models the `isinstance(elapsed, int)` test
(`Option.none` = any non-int value); `timeout_seconds` is `Optional[int]`
with Python truthiness. -/
def _decide_runtime_action (state : String) (elapsed : Option Int)
    (timeout_seconds : Option Int) (reason : String) : String × String :=
  if state = "blocked" then ("skip", "blocked")
  else if state = "error" then ("restart", "error:" ++ reason)
  else if state = "stuck" then
    let restart_threshold : Int :=
      if pyTruthyInt timeout_seconds then timeout_seconds.getD 900 else 900
    match elapsed with
    | Option.some e =>
      if e ≥ restart_threshold then
        ("restart", "stuck>" ++ toString restart_threshold ++ "s")
      else ("skip", "stuck_below_threshold")
    | Option.none => ("skip", "stuck_below_threshold")
  else if state = "busy" then
    if pyTruthyInt timeout_seconds then
      match elapsed with
      | Option.some e =>
        if e ≥ timeout_seconds.getD 0 then
          ("restart", "busy>" ++ toString (timeout_seconds.getD 0) ++ "s")
        else ("skip", "busy")
      | Option.none => ("skip", "busy")
    else ("skip", "busy")
  else ("continue", "")

/-! ## main.py: heartbeat session rollover -/

/-- The constant `_HEARTBEAT_AUTO_CONTEXT_THRESHOLD` (main.py, line 585). -/
def _HEARTBEAT_AUTO_CONTEXT_THRESHOLD : Int := 25

/-- Embedding of `_should_rollover_heartbeat_session` (main.py,
lines 650-662). -/
def _should_rollover_heartbeat_session (session_mode : String)
    (context_left_percent : Option Int) (threshold : Int) : Bool :=
  if session_mode = "fresh" then true
  else if session_mode ≠ "auto" then false
  else
    match context_left_percent with
    | Option.none => false
    | Option.some c => c < threshold

/-- Embedding of `_heartbeat_handoff_saved` (main.py, lines 692-704) over the
handoff file's content; `Option.none` models the read raising. -/
def _heartbeat_handoff_saved (content : Option String) : Bool :=
  match content with
  | Option.none => false
  | Option.some c =>
    let stripped := pyStrip c
    if stripped = "" then false
    else if pyIn "Status: saved" c then true
    else if !(pyIn "Status: pending" c) && stripped.length ≥ 80 then true
    else false

/-- The externally visible actions `_maybe_rollover_heartbeat_session`
performs, in order. -/
inductive RolloverAction where
  | writeTemplate
  | sendKeys
  | waitIdle
  | checkSaved (saved : Bool)
  | stopSession
  | startSession
deriving DecidableEq

/-- Oracle for the environment-dependent steps of the rollover: the detected
context percentage, whether `send_keys` succeeds, the handoff file content at
verification time, and whether `stop_session` / `cmd_start` succeed. -/
structure RolloverEnv where
  context_left_percent : Option Int
  send_keys_ok : Bool
  handoff_content : Option String
  stop_ok : Bool
  start_ok : Bool

/-- Embedding of `_maybe_rollover_heartbeat_session` (main.py,
lines 1147-1222) as a trace-producing function: the first component models
the returned `Optional[Path]` (as `Option Unit`), the second the ordered
list of externally visible actions taken. -/
def _maybe_rollover_heartbeat_session (session_mode : String)
    (env : RolloverEnv) : Option Unit × List RolloverAction :=
  if ¬(session_mode = "auto" ∨ session_mode = "fresh") then (Option.none, [])
  else if !(_should_rollover_heartbeat_session session_mode
      env.context_left_percent _HEARTBEAT_AUTO_CONTEXT_THRESHOLD) then
    (Option.none, [])
  else if !env.send_keys_ok then
    (Option.none, [RolloverAction.writeTemplate, RolloverAction.sendKeys])
  else
    let saved := _heartbeat_handoff_saved env.handoff_content
    let tr0 := [RolloverAction.writeTemplate, RolloverAction.sendKeys,
      RolloverAction.waitIdle, RolloverAction.checkSaved saved]
    if !saved then (Option.none, tr0)
    else if !env.stop_ok then (Option.none, tr0 ++ [RolloverAction.stopSession])
    else if !env.start_ok then
      (Option.none, tr0 ++ [RolloverAction.stopSession, RolloverAction.startSession])
    else
      (Option.some (), tr0 ++ [RolloverAction.stopSession, RolloverAction.startSession])

/-! ## heartbeat_slo.py -/

/-- Python `round` (round half to even), on exact rationals. -/
def pyRound (x : ℚ) : Int :=
  if x - (⌊x⌋ : ℚ) < 1/2 then ⌊x⌋
  else if (1 : ℚ)/2 < x - (⌊x⌋ : ℚ) then ⌊x⌋ + 1
  else if ⌊x⌋ % 2 = 0 then ⌊x⌋ else ⌊x⌋ + 1

/-- Embedding of `_percentile` (heartbeat_slo.py, lines 155-172).  Python
computes the rank and interpolation weights in IEEE-754 doubles; the model
uses exact rationals (which agree with the doubles at all values considered
below).  In the interpolation branch `rank ≥ 0`, so Python's truncating
`int(rank)` is the floor. -/
def _percentile (values : List Int) (percentile : ℚ) : Int :=
  match values with
  | [] => 0
  | v :: vs =>
    if percentile ≤ 0 then vs.foldl min v
    else if 100 ≤ percentile then vs.foldl max v
    else
      let ordered := List.insertionSort (· ≤ ·) ((v :: vs).map (fun x => max 0 x))
      let n := ordered.length
      let rank : ℚ := ((n : ℚ) - 1) * (percentile / 100)
      let lower := (⌊rank⌋).toNat
      let upper := min (lower + 1) (n - 1)
      if lower = upper then ordered.getD lower 0
      else
        let lower_weight : ℚ := (upper : ℚ) - rank
        let upper_weight : ℚ := rank - (lower : ℚ)
        pyRound ((ordered.getD lower 0 : ℚ) * lower_weight +
          (ordered.getD upper 0 : ℚ) * upper_weight)

/-- C1: `classify_heartbeat_ack` is total and deterministic (it is a Lean
function), and matches the ack table with checks in priority order:
no wait → `not_checked`/empty; normalized state `idle` → `ack`/empty;
else `blocked` → `blocked`/`blocked`; else timed out → `timeout`/`timeout`;
otherwise `no_ack`/`no_ack`. -/
theorem classify_heartbeat_ack_table (waited_for_ack : Bool)
    (last_state : Option String) (timed_out : Bool) :
    (waited_for_ack = false →
      (classify_heartbeat_ack waited_for_ack last_state timed_out).1 = "not_checked" ∧
      (classify_heartbeat_ack waited_for_ack last_state timed_out).2.1 = "") ∧
    (waited_for_ack = true →
      pyLower (pyStrip (last_state.getD "")) = "idle" →
      (classify_heartbeat_ack waited_for_ack last_state timed_out).1 = "ack" ∧
      (classify_heartbeat_ack waited_for_ack last_state timed_out).2.1 = "") ∧
    (waited_for_ack = true →
      pyLower (pyStrip (last_state.getD "")) ≠ "idle" →
      pyLower (pyStrip (last_state.getD "")) = "blocked" →
      (classify_heartbeat_ack waited_for_ack last_state timed_out).1 = "blocked" ∧
      (classify_heartbeat_ack waited_for_ack last_state timed_out).2.1 = "blocked") ∧
    (waited_for_ack = true →
      pyLower (pyStrip (last_state.getD "")) ≠ "idle" →
      pyLower (pyStrip (last_state.getD "")) ≠ "blocked" →
      timed_out = true →
      (classify_heartbeat_ack waited_for_ack last_state timed_out).1 = "timeout" ∧
      (classify_heartbeat_ack waited_for_ack last_state timed_out).2.1 = "timeout") ∧
    (waited_for_ack = true →
      pyLower (pyStrip (last_state.getD "")) ≠ "idle" →
      pyLower (pyStrip (last_state.getD "")) ≠ "blocked" →
      timed_out = false →
      (classify_heartbeat_ack waited_for_ack last_state timed_out).1 = "no_ack" ∧
      (classify_heartbeat_ack waited_for_ack last_state timed_out).2.1 = "no_ack") := by
  unfold classify_heartbeat_ack
  refine ⟨?_, ?_, ?_, ?_, ?_⟩ <;> intro hw
  · subst hw; simp
  · intro hidle
    subst hw; simp [hidle]
  · intro hnidle hblk
    subst hw; simp [hnidle, hblk]
  · intro hnidle hnblk ht
    subst hw; simp [hnidle, hnblk, ht]
  · intro hnidle hnblk ht
    subst hw; simp [hnidle, hnblk, ht]

/-- Witness for C1: concrete rows of the ack table. -/
theorem classify_heartbeat_ack_table_witness :
    (classify_heartbeat_ack true (Option.some "Blocked") false).1 = "blocked" ∧
    (classify_heartbeat_ack true (Option.some "Blocked") false).2.1 = "blocked" :=
  (classify_heartbeat_ack_table true (Option.some "Blocked") false).2.2.1
    rfl (by decide) (by decide)

/-- C3: `should_retry_heartbeat_attempt` is false whenever
`attempt_index ≥ max_retries`; below that bound it is true exactly when the
normalized failure type is one of `{send_fail, no_ack, timeout, blocked}`. -/
theorem should_retry_heartbeat_attempt_spec (failure_type : String)
    (attempt_index max_retries : Int) :
    (attempt_index ≥ max_retries →
      should_retry_heartbeat_attempt failure_type attempt_index max_retries = false) ∧
    (attempt_index < max_retries →
      (should_retry_heartbeat_attempt failure_type attempt_index max_retries = true ↔
        pyLower (pyStrip failure_type) ∈ RECOVERABLE_FAILURE_TYPES)) := by
  constructor
  · intro h
    simp [should_retry_heartbeat_attempt, h]
  · intro h
    simp [should_retry_heartbeat_attempt, not_le.mpr h]

/-- Witness for C3: at `attempt_index = 0 < max_retries = 1`, failure type
`" Timeout "` normalizes to `timeout` and is retryable; at
`attempt_index = 1 ≥ max_retries = 1` no retry happens. -/
theorem should_retry_heartbeat_attempt_spec_witness :
    should_retry_heartbeat_attempt " Timeout " 0 1 = true ∧
    should_retry_heartbeat_attempt "other" 1 1 = false :=
  ⟨((should_retry_heartbeat_attempt_spec " Timeout " 0 1).2 (by decide)).mpr
      (by decide),
    (should_retry_heartbeat_attempt_spec "other" 1 1).1 (by decide)⟩

/-- Every normalized runtime state is a member of `RUNTIME_STATES`. -/
theorem normalize_runtime_state_mem (s : Option String) :
    normalize_runtime_state s ∈ RUNTIME_STATES := by
  have h : ∀ v : String, (if v ∈ RUNTIME_STATES then v else "unknown") ∈
      RUNTIME_STATES := by
    intro v
    split
    · assumption
    · decide
  exact h (pyLower (pyStrip (pyOrStr s "")))

/-- C10: `evaluate_runtime_state` is total with a closed codomain: the state
is always one of `RUNTIME_STATES`; a truthy `force_state` whose normalized
form is unrecognized yields `unknown`; a non-string output (no force, running,
readable) yields `unknown`/`invalid_output`; and a missing, non-int-coercible
or non-positive `stuck_after_seconds` resolves to 180. -/
theorem evaluate_runtime_state_total (output : Option String)
    (cfg : RuntimeConfig) (elapsed : Option Int) (err : Option String)
    (sr orr : Bool) (fs fr : Option String) :
    ((evaluate_runtime_state output cfg elapsed err sr orr fs fr).state ∈
      RUNTIME_STATES) ∧
    (pyTruthyStr fs = true →
      pyLower (pyStrip (fs.getD "")) ∉ RUNTIME_STATES →
      (evaluate_runtime_state output cfg elapsed err sr orr fs fr).state =
        "unknown") ∧
    (pyTruthyStr fs = false → sr = true → orr = true → output = Option.none →
      (evaluate_runtime_state output cfg elapsed err sr orr fs fr).state =
          "unknown" ∧
        (evaluate_runtime_state output cfg elapsed err sr orr fs fr).reason =
          "invalid_output") ∧
    (∀ pv, pyToInt pv = Option.none →
      resolve_stuck_after_seconds (Option.some pv) = 180) ∧
    (∀ n : Int, n ≤ 0 →
      resolve_stuck_after_seconds (Option.some (PyVal.int n)) = 180) ∧
    resolve_stuck_after_seconds Option.none = 180 := by
  refine ⟨?_, ?_, ?_, ?_, ?_, ?_⟩
  · unfold evaluate_runtime_state
    (repeat' split) <;>
      first
        | exact normalize_runtime_state_mem fs
        | simp [RUNTIME_STATES]
  · intro hf hn
    have horr : pyOrStr fs "" = fs.getD "" := by
      simp [pyOrStr, hf]
    have hu : normalize_runtime_state fs = "unknown" := by
      simp only [normalize_runtime_state, horr]
      simp [hn]
    unfold evaluate_runtime_state
    simp [hf, hu]
  · intro hf hs ho hout
    subst hout hs ho
    simp [evaluate_runtime_state, hf]
  · intro pv h
    simp [resolve_stuck_after_seconds, h]
  · intro n hn
    simp [resolve_stuck_after_seconds, pyToInt, hn]
  · decide

/-- Witness for C10: a non-string output with no force state, a running
session and readable output yields `unknown`/`invalid_output`. -/
theorem evaluate_runtime_state_total_witness :
    (evaluate_runtime_state Option.none ⟨[], [], Option.none⟩ Option.none
        Option.none true true Option.none Option.none).state = "unknown" ∧
      (evaluate_runtime_state Option.none ⟨[], [], Option.none⟩ Option.none
        Option.none true true Option.none Option.none).reason =
        "invalid_output" :=
  (evaluate_runtime_state_total Option.none ⟨[], [], Option.none⟩ Option.none
    Option.none true true Option.none Option.none).2.2.1 rfl rfl rfl rfl

/-- C2 counterexample: with `blocked_patterns = [""]` the empty configured
pattern occurs (trivially) as a substring of the output `"y"`, the
preconditions hold (no force state, session running, output readable, output
a string), yet the state is `"busy"`, not `"blocked"`: `detect_first_pattern`
skips falsy (empty) patterns. -/
theorem evaluate_runtime_state_blocked_cex :
    ("" ∈ ([""] : List String)) ∧ ("".data <:+: "y".data) ∧
    (evaluate_runtime_state (Option.some "y") ⟨["y"], [""], Option.none⟩
        Option.none Option.none true true Option.none Option.none).state =
      "busy" := by
  refine ⟨by decide, by decide, by decide⟩

/-- C2 (amended): whenever the preconditions hold (no truthy force state,
session running, output readable, output a string) and at least one
non-empty configured blocked pattern occurs as a substring of the output,
the state is `"blocked"` and the reason names the first such pattern —
regardless of busy patterns and error reason, so blocked takes priority
over busy and error. -/
theorem evaluate_runtime_state_blocked_priority (out : String)
    (cfg : RuntimeConfig) (elapsed : Option Int) (err : Option String)
    (fs fr : Option String) (hf : pyTruthyStr fs = false)
    (hex : ∃ p ∈ cfg.blocked_patterns, p ≠ "" ∧ p.data <:+: out.data) :
    ∃ q, cfg.blocked_patterns.find? (fun p => p != "" && pyIn p out) =
        Option.some q ∧
      (evaluate_runtime_state (Option.some out) cfg elapsed err true true fs
          fr).state = "blocked" ∧
      (evaluate_runtime_state (Option.some out) cfg elapsed err true true fs
          fr).reason = "blocked_pattern:" ++ q := by
  obtain ⟨p, hp, hne, hinf⟩ := hex
  have hout : out ≠ "" := by
    intro h
    subst h
    exact hne (String.ext (by simpa using hinf))
  have hnil : cfg.blocked_patterns ≠ [] := List.ne_nil_of_mem hp
  have hfind :
      (cfg.blocked_patterns.find? (fun p => p != "" && pyIn p out)).isSome := by
    rw [List.find?_isSome]
    exact ⟨p, hp, by simp [pyIn, hne, hinf]⟩
  obtain ⟨q, hq⟩ := Option.isSome_iff_exists.mp hfind
  refine ⟨q, hq, ?_, ?_⟩ <;>
    simp [evaluate_runtime_state, detect_first_pattern, hf, hout, hnil, hq]

/-- Witness for C2 (amended): blocked pattern `"a"` inside output `"xay"`
wins although busy pattern `"x"` also matches and an error reason is set. -/
theorem evaluate_runtime_state_blocked_priority_witness :
    ∃ q, (["a"] : List String).find? (fun p => p != "" && pyIn p "xay") =
        Option.some q ∧
      (evaluate_runtime_state (Option.some "xay") ⟨["x"], ["a"], Option.none⟩
          Option.none (Option.some "boom") true true Option.none
          Option.none).state = "blocked" ∧
      (evaluate_runtime_state (Option.some "xay") ⟨["x"], ["a"], Option.none⟩
          Option.none (Option.some "boom") true true Option.none
          Option.none).reason = "blocked_pattern:" ++ q :=
  evaluate_runtime_state_blocked_priority "xay" ⟨["x"], ["a"], Option.none⟩
    Option.none (Option.some "boom") Option.none Option.none rfl
    ⟨"a", by decide, by decide, by decide⟩

/-- C4 counterexample: with `force_state = "stuck"` the state `"stuck"` is
returned although no busy pattern matches (both pattern lists are empty) and
no elapsed value is present: the force override bypasses the busy path. -/
theorem evaluate_runtime_state_stuck_cex :
    (evaluate_runtime_state (Option.some "") ⟨[], [], Option.none⟩ Option.none
        Option.none true true (Option.some "stuck") Option.none).state =
      "stuck" ∧
    detect_first_pattern "" ([] : List String) = Option.none := by
  refine ⟨by decide, by decide⟩

/-- C4 (amended): in the absence of a truthy `force_state` override,
`evaluate_runtime_state` returns `"stuck"` only when a busy pattern matched,
no blocked pattern matched, the session is running, the output is readable,
and an elapsed value `≥ stuck_after_seconds` is present; with a matching
busy pattern and elapsed `= stuck_after_seconds - 1` (or absent) the state
is `"busy"`; and `"stuck"` is never returned when no busy pattern matches. -/
theorem evaluate_runtime_state_stuck_spec (output : Option String)
    (cfg : RuntimeConfig) (elapsed : Option Int) (err : Option String)
    (sr orr : Bool) (fs fr : Option String)
    (hf : pyTruthyStr fs = false) :
    ((evaluate_runtime_state output cfg elapsed err sr orr fs fr).state =
        "stuck" →
      ∃ out p e, output = Option.some out ∧
        detect_first_pattern out cfg.busy_patterns = Option.some p ∧
        detect_first_pattern out cfg.blocked_patterns = Option.none ∧
        sr = true ∧ orr = true ∧ elapsed = Option.some e ∧
        e ≥ resolve_stuck_after_seconds cfg.stuck_after_seconds) ∧
    (∀ out p, output = Option.some out → sr = true → orr = true →
      detect_first_pattern out cfg.blocked_patterns = Option.none →
      detect_first_pattern out cfg.busy_patterns = Option.some p →
      (elapsed =
          Option.some (resolve_stuck_after_seconds cfg.stuck_after_seconds - 1) ∨
        elapsed = Option.none) →
      (evaluate_runtime_state output cfg elapsed err sr orr fs fr).state =
        "busy") ∧
    ((∀ out, output = Option.some out →
        detect_first_pattern out cfg.busy_patterns = Option.none) →
      (evaluate_runtime_state output cfg elapsed err sr orr fs fr).state ≠
        "stuck") := by
  have key : (evaluate_runtime_state output cfg elapsed err sr orr fs fr).state =
      "stuck" →
      ∃ out p e, output = Option.some out ∧
        detect_first_pattern out cfg.busy_patterns = Option.some p ∧
        detect_first_pattern out cfg.blocked_patterns = Option.none ∧
        sr = true ∧ orr = true ∧ elapsed = Option.some e ∧
        e ≥ resolve_stuck_after_seconds cfg.stuck_after_seconds := by
    intro hs
    cases output with
    | none =>
      exfalso
      cases sr <;> cases orr <;> simp [evaluate_runtime_state, hf] at hs
    | some out =>
      cases sr with
      | false =>
        exfalso
        simp [evaluate_runtime_state, hf] at hs
      | true =>
        cases orr with
        | false =>
          exfalso
          simp [evaluate_runtime_state, hf] at hs
        | true =>
          rcases hb : detect_first_pattern out cfg.blocked_patterns with _ | p
          · rcases hbu : detect_first_pattern out cfg.busy_patterns with _ | q
            · exfalso
              simp [evaluate_runtime_state, hf, hb, hbu] at hs
              split at hs <;> (try split at hs) <;> simp_all
            · rcases elapsed with _ | e
              · exfalso
                simp [evaluate_runtime_state, hf, hb, hbu] at hs
              · by_cases he :
                  e ≥ resolve_stuck_after_seconds cfg.stuck_after_seconds
                · exact ⟨out, q, e, rfl, hbu, hb, rfl, rfl, rfl, he⟩
                · exfalso
                  simp [evaluate_runtime_state, hf, hb, hbu, he] at hs
          · exfalso
            simp [evaluate_runtime_state, hf, hb] at hs
  refine ⟨key, ?_, ?_⟩
  · intro out p hout hsr horr hb hbu helapsed
    subst hout hsr horr
    have hlt : ¬(resolve_stuck_after_seconds cfg.stuck_after_seconds - 1 ≥
        resolve_stuck_after_seconds cfg.stuck_after_seconds) := by omega
    rcases helapsed with h | h <;> subst h <;>
      simp [evaluate_runtime_state, hf, hb, hbu, hlt]
  · intro hnone hs
    obtain ⟨out, p, e, h1, h2, _⟩ := key hs
    rw [hnone out h1] at h2
    simp at h2

/-- Witness for C4 (amended): busy pattern `"spin"`, elapsed 179 with the
default threshold 180, yields `"busy"`. -/
theorem evaluate_runtime_state_stuck_spec_witness :
    (evaluate_runtime_state (Option.some "spin") ⟨["spin"], [], Option.none⟩
        (Option.some 179) Option.none true true Option.none
        Option.none).state = "busy" :=
  (evaluate_runtime_state_stuck_spec (Option.some "spin")
      ⟨["spin"], [], Option.none⟩ (Option.some 179) Option.none true true
      Option.none Option.none rfl).2.1 "spin" "spin" rfl rfl rfl (by decide)
    (by decide) (Or.inl (by decide))

/-- The restart threshold used by `_decide_runtime_action` in the `"stuck"`
case: the configured timeout when truthy (non-`None`, non-zero), else the
900-second default. -/
def stuckRestartThreshold (timeout_seconds : Option Int) : Int :=
  if pyTruthyInt timeout_seconds then timeout_seconds.getD 900 else 900

/-- C7: the scheduled-task dispatch decision: `blocked → skip`;
`error → restart`; `stuck → restart` exactly when elapsed is an integer at
least the restart threshold (configured timeout or 900), else `skip`;
`busy → restart` exactly when a timeout is configured and elapsed is an
integer at least that timeout, else `skip`; anything else → `continue`. -/
theorem decide_runtime_action_spec (state : String) (elapsed : Option Int)
    (timeout_seconds : Option Int) (reason : String) :
    (state = "blocked" →
      (_decide_runtime_action state elapsed timeout_seconds reason).1 = "skip") ∧
    (state = "error" →
      (_decide_runtime_action state elapsed timeout_seconds reason).1 =
        "restart") ∧
    (state = "stuck" →
      ((_decide_runtime_action state elapsed timeout_seconds reason).1 =
          "restart" ↔
        ∃ e, elapsed = Option.some e ∧
          e ≥ stuckRestartThreshold timeout_seconds)) ∧
    (state = "stuck" →
      ¬(∃ e, elapsed = Option.some e ∧
          e ≥ stuckRestartThreshold timeout_seconds) →
      (_decide_runtime_action state elapsed timeout_seconds reason).1 = "skip") ∧
    (state = "busy" →
      ((_decide_runtime_action state elapsed timeout_seconds reason).1 =
          "restart" ↔
        (pyTruthyInt timeout_seconds = true ∧
          ∃ e, elapsed = Option.some e ∧ e ≥ timeout_seconds.getD 0))) ∧
    (state = "busy" →
      ¬(pyTruthyInt timeout_seconds = true ∧
          ∃ e, elapsed = Option.some e ∧ e ≥ timeout_seconds.getD 0) →
      (_decide_runtime_action state elapsed timeout_seconds reason).1 = "skip") ∧
    (state ∉ (["blocked", "error", "stuck", "busy"] : List String) →
      _decide_runtime_action state elapsed timeout_seconds reason =
        ("continue", "")) := by
  have hstuck : ∀ e : Int,
      _decide_runtime_action "stuck" (Option.some e) timeout_seconds reason =
        if e ≥ stuckRestartThreshold timeout_seconds then
          ("restart",
            "stuck>" ++ toString (stuckRestartThreshold timeout_seconds) ++ "s")
        else ("skip", "stuck_below_threshold") := by
    intro e
    simp [_decide_runtime_action, stuckRestartThreshold]
  have hbusy : ∀ e : Int,
      _decide_runtime_action "busy" (Option.some e) timeout_seconds reason =
        if pyTruthyInt timeout_seconds = true then
          if e ≥ timeout_seconds.getD 0 then
            ("restart", "busy>" ++ toString (timeout_seconds.getD 0) ++ "s")
          else ("skip", "busy")
        else ("skip", "busy") := by
    intro e
    simp [_decide_runtime_action]
  have hbusy0 :
      _decide_runtime_action "busy" Option.none timeout_seconds reason =
        ("skip", "busy") := by
    simp [_decide_runtime_action]
  refine ⟨?_, ?_, ?_, ?_, ?_, ?_, ?_⟩
  · intro h
    subst h
    simp [_decide_runtime_action]
  · intro h
    subst h
    simp [_decide_runtime_action]
  · intro h
    subst h
    rcases elapsed with _ | e
    · simp [_decide_runtime_action]
    · rw [hstuck e]
      split_ifs with hc <;> simp [hc]
  · intro h hne
    subst h
    rcases elapsed with _ | e
    · simp [_decide_runtime_action]
    · rw [hstuck e]
      split_ifs with hc
      · exact absurd ⟨e, rfl, hc⟩ hne
      · rfl
  · intro h
    subst h
    rcases elapsed with _ | e
    · simp [hbusy0]
    · rw [hbusy e]
      by_cases ht : pyTruthyInt timeout_seconds = true
      · simp only [ht, if_true]
        split_ifs with hc <;> simp [hc, ht]
      · simp [ht]
  · intro h hne
    subst h
    rcases elapsed with _ | e
    · simp [hbusy0]
    · rw [hbusy e]
      by_cases ht : pyTruthyInt timeout_seconds = true
      · simp only [ht, if_true]
        split_ifs with hc
        · exact absurd ⟨ht, e, rfl, hc⟩ hne
        · rfl
      · simp [ht]
  · intro h
    simp at h
    obtain ⟨h1, h2, h3, h4⟩ := h
    simp [_decide_runtime_action, h1, h2, h3, h4]

/-- Witness for C7: a stuck state with elapsed 900 and no configured timeout
restarts; a busy state without a configured timeout skips. -/
theorem decide_runtime_action_spec_witness :
    (_decide_runtime_action "stuck" (Option.some 900) Option.none "").1 =
      "restart" ∧
    (_decide_runtime_action "busy" (Option.some 900) Option.none "").1 =
      "skip" :=
  ⟨((decide_runtime_action_spec "stuck" (Option.some 900) Option.none
      "").2.2.1 rfl).mpr ⟨900, rfl, by decide⟩,
    (decide_runtime_action_spec "busy" (Option.some 900) Option.none
      "").2.2.2.2.2.1 rfl (by simp [pyTruthyInt])⟩

/-- C8: the rollover never stops a session whose handoff was not verified:
whenever `stopSession` appears in the action trace, the handoff was verified
saved and the trace passes `checkSaved true` strictly before `stopSession`;
and if sending the handoff prompt fails or the handoff is not verified
saved, the function returns `None` without stopping or restarting. -/
theorem maybe_rollover_stop_safety (session_mode : String)
    (env : RolloverEnv) :
    (RolloverAction.stopSession ∈
        (_maybe_rollover_heartbeat_session session_mode env).2 →
      _heartbeat_handoff_saved env.handoff_content = true ∧
      ∃ pre post, (_maybe_rollover_heartbeat_session session_mode env).2 =
          pre ++ RolloverAction.checkSaved true :: post ∧
        RolloverAction.stopSession ∉ pre ∧ RolloverAction.stopSession ∈ post) ∧
    (env.send_keys_ok = false →
      (_maybe_rollover_heartbeat_session session_mode env).1 = Option.none ∧
      RolloverAction.stopSession ∉
        (_maybe_rollover_heartbeat_session session_mode env).2 ∧
      RolloverAction.startSession ∉
        (_maybe_rollover_heartbeat_session session_mode env).2) ∧
    (_heartbeat_handoff_saved env.handoff_content = false →
      (_maybe_rollover_heartbeat_session session_mode env).1 = Option.none ∧
      RolloverAction.stopSession ∉
        (_maybe_rollover_heartbeat_session session_mode env).2 ∧
      RolloverAction.startSession ∉
        (_maybe_rollover_heartbeat_session session_mode env).2) := by
  obtain ⟨cl, sk, hc, so, st⟩ := env
  by_cases hmode : session_mode = "auto" ∨ session_mode = "fresh"
  case neg =>
    simp [_maybe_rollover_heartbeat_session, hmode]
  case pos =>
    by_cases hroll : _should_rollover_heartbeat_session session_mode cl
        _HEARTBEAT_AUTO_CONTEXT_THRESHOLD = true
    case neg =>
      have hroll' : _should_rollover_heartbeat_session session_mode cl
          _HEARTBEAT_AUTO_CONTEXT_THRESHOLD = false := by
        simpa using hroll
      simp [_maybe_rollover_heartbeat_session, hmode, hroll']
    case pos =>
      cases sk with
      | false =>
        simp [_maybe_rollover_heartbeat_session, hmode, hroll]
      | true =>
        by_cases hsv : _heartbeat_handoff_saved hc = true
        · cases so with
          | false =>
            refine ⟨?_, ?_, ?_⟩
            · intro _
              refine ⟨hsv, [RolloverAction.writeTemplate, RolloverAction.sendKeys,
                  RolloverAction.waitIdle], [RolloverAction.stopSession],
                ?_, by decide, by decide⟩
              simp [_maybe_rollover_heartbeat_session, hmode, hroll, hsv]
            · intro h
              simp at h
            · intro h
              rw [hsv] at h
              simp at h
          | true =>
            cases st with
            | false =>
              refine ⟨?_, ?_, ?_⟩
              · intro _
                refine ⟨hsv, [RolloverAction.writeTemplate,
                    RolloverAction.sendKeys, RolloverAction.waitIdle],
                  [RolloverAction.stopSession, RolloverAction.startSession],
                  ?_, by decide, by decide⟩
                simp [_maybe_rollover_heartbeat_session, hmode, hroll, hsv]
              · intro h
                simp at h
              · intro h
                rw [hsv] at h
                simp at h
            | true =>
              refine ⟨?_, ?_, ?_⟩
              · intro _
                refine ⟨hsv, [RolloverAction.writeTemplate,
                    RolloverAction.sendKeys, RolloverAction.waitIdle],
                  [RolloverAction.stopSession, RolloverAction.startSession],
                  ?_, by decide, by decide⟩
                simp [_maybe_rollover_heartbeat_session, hmode, hroll, hsv]
              · intro h
                simp at h
              · intro h
                rw [hsv] at h
                simp at h
        · have hsv' : _heartbeat_handoff_saved hc = false := by
            simpa using hsv
          simp [_maybe_rollover_heartbeat_session, hmode, hroll, hsv']

/-- Witness for C8: with a saved handoff and all steps succeeding, the trace
stops the session only after `checkSaved true`; with a failing `send_keys`
the rollover aborts without stopping. -/
theorem maybe_rollover_stop_safety_witness :
    (_heartbeat_handoff_saved (Option.some "Status: saved") = true ∧
      ∃ pre post, (_maybe_rollover_heartbeat_session "fresh"
          ⟨Option.none, true, Option.some "Status: saved", true, true⟩).2 =
          pre ++ RolloverAction.checkSaved true :: post ∧
        RolloverAction.stopSession ∉ pre ∧
        RolloverAction.stopSession ∈ post) ∧
    ((_maybe_rollover_heartbeat_session "fresh"
        ⟨Option.none, false, Option.none, true, true⟩).1 = Option.none ∧
      RolloverAction.stopSession ∉ (_maybe_rollover_heartbeat_session "fresh"
        ⟨Option.none, false, Option.none, true, true⟩).2 ∧
      RolloverAction.startSession ∉ (_maybe_rollover_heartbeat_session "fresh"
        ⟨Option.none, false, Option.none, true, true⟩).2) :=
  ⟨(maybe_rollover_stop_safety "fresh"
      ⟨Option.none, true, Option.some "Status: saved", true, true⟩).1
      (by decide),
    (maybe_rollover_stop_safety "fresh"
      ⟨Option.none, false, Option.none, true, true⟩).2.1 rfl⟩

/-- C6: recovery-policy parsing (no CLI overrides): missing fields take the
defaults `max_retries = 1`, `retry_backoff_seconds = 3`,
`fallback_mode = "fresh"`, `notify_on_failure = false`,
`notifier_channel = "all"`; a `fallback_mode` reading `restart` normalizes to
`fresh`; negative integers clamp to zero; a blank notifier channel falls
back to `"all"`.  `heartbeatRawPolicy` is the merged recovery section
(empty for missing or malformed `recovery` values, with top-level keys
promoted), so the quantification covers every heartbeat config mapping. -/
theorem parse_heartbeat_recovery_policy_spec
    (heartbeat : List (String × PyVal)) :
    (dictGet (heartbeatRawPolicy heartbeat) "max_retries" = Option.none →
      (parse_heartbeat_recovery_policy heartbeat Option.none
        Option.none).max_retries = 1) ∧
    (dictGet (heartbeatRawPolicy heartbeat) "retry_backoff_seconds" =
        Option.none →
      (parse_heartbeat_recovery_policy heartbeat Option.none
        Option.none).retry_backoff_seconds = 3) ∧
    (dictGet (heartbeatRawPolicy heartbeat) "fallback_mode" = Option.none →
      (parse_heartbeat_recovery_policy heartbeat Option.none
        Option.none).fallback_mode = "fresh") ∧
    (dictGet (heartbeatRawPolicy heartbeat) "notify_on_failure" = Option.none →
      (parse_heartbeat_recovery_policy heartbeat Option.none
        Option.none).notify_on_failure = false) ∧
    (dictGet (heartbeatRawPolicy heartbeat) "notifier_channel" = Option.none →
      (parse_heartbeat_recovery_policy heartbeat Option.none
        Option.none).notifier_channel = "all") ∧
    (∀ v, dictGet (heartbeatRawPolicy heartbeat) "fallback_mode" =
        Option.some v →
      pyLower (pyStrip (pyStr v)) = "restart" →
      (parse_heartbeat_recovery_policy heartbeat Option.none
        Option.none).fallback_mode = "fresh") ∧
    (∀ n : Int, n < 0 →
      dictGet (heartbeatRawPolicy heartbeat) "max_retries" =
        Option.some (PyVal.int n) →
      (parse_heartbeat_recovery_policy heartbeat Option.none
        Option.none).max_retries = 0) ∧
    (∀ n : Int, n < 0 →
      dictGet (heartbeatRawPolicy heartbeat) "retry_backoff_seconds" =
        Option.some (PyVal.int n) →
      (parse_heartbeat_recovery_policy heartbeat Option.none
        Option.none).retry_backoff_seconds = 0) ∧
    (∀ v, dictGet (heartbeatRawPolicy heartbeat) "notifier_channel" =
        Option.some v →
      pyStrip (pyStr v) = "" →
      (parse_heartbeat_recovery_policy heartbeat Option.none
        Option.none).notifier_channel = "all") := by
  refine ⟨?_, ?_, ?_, ?_, ?_, ?_, ?_, ?_, ?_⟩
  · intro h
    simp only [parse_heartbeat_recovery_policy, dictGetD, h, Option.getD]
    decide
  · intro h
    simp only [parse_heartbeat_recovery_policy, dictGetD, h, Option.getD]
    decide
  · intro h
    simp only [parse_heartbeat_recovery_policy, dictGetD, h, Option.getD]
    decide
  · intro h
    simp only [parse_heartbeat_recovery_policy, dictGetD, h, Option.getD]
    decide
  · intro h
    simp only [parse_heartbeat_recovery_policy, dictGetD, h, Option.getD]
    decide
  · intro v h hv
    simp only [parse_heartbeat_recovery_policy, dictGetD, h, Option.getD]
    by_cases ht : pyTruthy v = true
    · have hv0 : pyValOr v (PyVal.str "fresh") = v := by
        simp [pyValOr, ht]
      rw [hv0, hv]
      decide
    · have ht' : pyTruthy v = false := by simpa using ht
      have hv0 : pyValOr v (PyVal.str "fresh") = PyVal.str "fresh" := by
        simp [pyValOr, ht']
      rw [hv0]
      decide
  · intro n hn h
    simp only [parse_heartbeat_recovery_policy, dictGetD, h, Option.getD,
      _parse_non_negative_int, pyToInt]
    exact max_eq_left (le_of_lt hn)
  · intro n hn h
    simp only [parse_heartbeat_recovery_policy, dictGetD, h, Option.getD,
      _parse_non_negative_int, pyToInt]
    exact max_eq_left (le_of_lt hn)
  · intro v h hv
    simp only [parse_heartbeat_recovery_policy, dictGetD, h, Option.getD]
    by_cases ht : pyTruthy v = true
    · have hv0 : pyValOr v (PyVal.str "all") = v := by
        simp [pyValOr, ht]
      rw [hv0, hv]
      decide
    · have ht' : pyTruthy v = false := by simpa using ht
      have hv0 : pyValOr v (PyVal.str "all") = PyVal.str "all" := by
        simp [pyValOr, ht']
      rw [hv0]
      decide

/-- Witness for C6: the empty config yields every default, and a legacy
`restart` fallback with negative retries and a blank channel normalizes. -/
theorem parse_heartbeat_recovery_policy_spec_witness :
    (parse_heartbeat_recovery_policy [] Option.none Option.none).max_retries =
      1 ∧
    (parse_heartbeat_recovery_policy
      [("recovery", PyVal.dict
        [("fallback_mode", PyVal.str "Restart"),
          ("max_retries", PyVal.int (-4)),
          ("notifier_channel", PyVal.str "   ")])]
      Option.none Option.none).fallback_mode = "fresh" ∧
    (parse_heartbeat_recovery_policy
      [("recovery", PyVal.dict
        [("fallback_mode", PyVal.str "Restart"),
          ("max_retries", PyVal.int (-4)),
          ("notifier_channel", PyVal.str "   ")])]
      Option.none Option.none).max_retries = 0 ∧
    (parse_heartbeat_recovery_policy
      [("recovery", PyVal.dict
        [("fallback_mode", PyVal.str "Restart"),
          ("max_retries", PyVal.int (-4)),
          ("notifier_channel", PyVal.str "   ")])]
      Option.none Option.none).notifier_channel = "all" :=
  ⟨(parse_heartbeat_recovery_policy_spec []).1 rfl,
    (parse_heartbeat_recovery_policy_spec _).2.2.2.2.2.1
      (PyVal.str "Restart") rfl (by decide),
    (parse_heartbeat_recovery_policy_spec _).2.2.2.2.2.2.1
      (-4) (by decide) rfl,
    (parse_heartbeat_recovery_policy_spec _).2.2.2.2.2.2.2.2
      (PyVal.str "   ") rfl (by decide)⟩

/-- C5 counterexample: the output `"a timeout\nx timed out"` is classified as
a timeout error although no stronger signal from the claim's list (`deadline
exceeded`, `etimedout`, a word matching `error|failed|exception|traceback`,
or the standalone word `failure`) shares a line with the word `timeout`: the
global `"timed out"` check fires before any per-line co-location test. -/
theorem detect_error_reason_timeout_cex :
    detect_error_reason "a timeout\nx timed out" = Option.some "timeout" ∧
    pyIn "timeout" (pyLower "a timeout\nx timed out") = true ∧
    (∀ line ∈ pySplitlines (pyLower "a timeout\nx timed out").data,
      pyIn "timeout" ⟨line⟩ = true →
      anyWordSearch ["deadline exceeded", "etimedout"] line = false ∧
      anyWordSearch ["error", "failed", "exception", "traceback"] line =
        false ∧
      wordSearch "failure" line = false) := by
  refine ⟨by decide, by decide, by decide⟩

/-- C5 (amended): for outputs containing `timeout` on which none of the
more specific error branches fire, `detect_error_reason` classifies a
timeout error exactly when the output contains `timed out` anywhere, or a
word-bounded `etimedout` / `deadline exceeded` / `context deadline exceeded`
anywhere, or some line containing `timeout` also carries a per-line signal
(`timeoutErrorLine`: those words, a word matching
`error|failed|exception|traceback`, or the standalone word `failure` not in
the phrase `failure modes`). -/
theorem detect_error_reason_timeout_iff (output : String)
    (h0 : pyIn "timeout" (pyLower output) = true)
    (h1 : pyIn "stopped after 10 redirects" (pyLower output) = false)
    (h2 : (pyIn "error 522" (pyLower output) ||
      pyIn "cloudflare ray id" (pyLower output)) = false)
    (h3 : pyIn "error: 500 post " (pyLower output) = false)
    (h4 : (pyIn "api error: 400" (pyLower output) &&
      pyIn "unknown provider" (pyLower output)) = false)
    (h5 : pyIn "invalid_request_error" (pyLower output) = false) :
    detect_error_reason output = Option.some "timeout" ↔
      (pyIn "timed out" (pyLower output) = true ∨
        anyWordSearch ["etimedout", "deadline exceeded",
          "context deadline exceeded"] (pyLower output).data = true ∨
        ∃ line ∈ pySplitlines (pyLower output).data,
          timeoutErrorLine line = true) := by
  have hne : output ≠ "" := by
    intro h
    rw [h] at h0
    exact absurd h0 (by decide)
  unfold detect_error_reason
  rw [if_neg hne]
  simp only [h1, h2, h3, h4, h5, h0]
  by_cases hto : pyIn "timed out" (pyLower output) = true
  · simp [hto]
  · have hto' : pyIn "timed out" (pyLower output) = false := by
      simpa using hto
    by_cases hA : anyWordSearch ["etimedout", "deadline exceeded",
        "context deadline exceeded"] (pyLower output).data = true
    · simp [hto', hA]
    · have hA' : anyWordSearch ["etimedout", "deadline exceeded",
          "context deadline exceeded"] (pyLower output).data = false := by
        simpa using hA
      by_cases hB : (pySplitlines (pyLower output).data).any
          timeoutErrorLine = true
      · simp only [hto', hA', hB]
        simp [List.any_eq_true] at hB
        simp [hto', hA', hB]
      · have hB' : (pySplitlines (pyLower output).data).any
            timeoutErrorLine = false := by
          simpa using hB
        simp only [hto', hA', hB']
        simp only [List.any_eq_true] at hB'
        split_ifs <;> simp_all [List.any_eq_true]

/-- Witness for C5 (amended): `"error: timeout occurred"` co-locates the word
`error` with `timeout` on one line and is classified `timeout`. -/
theorem detect_error_reason_timeout_iff_witness :
    detect_error_reason "error: timeout occurred" = Option.some "timeout" :=
  (detect_error_reason_timeout_iff "error: timeout occurred" (by decide)
      (by decide) (by decide) (by decide) (by decide) (by decide)).mpr
    (by decide)

/-- C9 counterexample: `_percentile` over the recovery-sample list
`[15000, 1000]` at the 95th percentile yields 14300, not the documented
worked-example value 40000.  (The two events of the worked example have
`duration_ms` 15000 and 1000, but the run's recovery-latency sample is the
40-second timestamp span, a single sample of 40000 ms.) -/
theorem percentile_fixture_cex :
    _percentile [15000, 1000] 95 = 14300 ∧ (14300 : Int) ≠ 40000 := by
  refine ⟨?_, by decide⟩
  simp only [_percentile]
  norm_num [List.insertionSort, List.orderedInsert, pyRound, Int.floor_eq_iff]

/-- C9 (amended): `_percentile` computes linear interpolation between order
statistics: over two samples `0 ≤ a ≤ b` at the 95th percentile it returns
`round(a/20 + 19*b/20)`; over `[15000, 1000]` this gives 14300; the
documented worked-example value 40000 is the percentile of the run's single
span sample `[40000]` (the two events span 40 seconds). -/
theorem percentile_fixture_spec :
    _percentile [15000, 1000] 95 = 14300 ∧
    _percentile [40000] 95 = 40000 ∧
    (∀ a b : Int, 0 ≤ a → a ≤ b →
      _percentile [a, b] 95 =
        pyRound ((a : ℚ) * (1/20) + (b : ℚ) * (19/20))) := by
  refine ⟨?_, ?_, ?_⟩
  · simp only [_percentile]
    norm_num [List.insertionSort, List.orderedInsert, pyRound,
      Int.floor_eq_iff]
  · simp only [_percentile]
    norm_num [List.insertionSort, List.orderedInsert, pyRound,
      Int.floor_eq_iff]
  · intro a b ha hab
    have hma : max 0 a = a := max_eq_right ha
    have hmb : max 0 b = b := max_eq_right (ha.trans hab)
    simp only [_percentile]
    norm_num [List.insertionSort, List.orderedInsert, hma, hmb, hab,
      Int.floor_eq_iff, List.getD]

/-- Witness for C9 (amended): the interpolation formula at `a = 1000`,
`b = 15000`. -/
theorem percentile_fixture_spec_witness :
    _percentile [1000, 15000] 95 =
      pyRound ((1000 : ℚ) * (1/20) + (15000 : ℚ) * (19/20)) :=
  percentile_fixture_spec.2.2 1000 15000 (by decide) (by decide)
